import Mathlib

/-!
Verification of the mock "Responses API" echo server (`src/agent.py`).

The server exposes one endpoint, `POST /v1/responses`.  Its substantive
logic is two pure functions, `extract_echo_text` and
`build_responses_payload`, plus the HTTP handler `responses` gluing them
together.  We embed the JSON data model and those three functions in Lean
and prove or refute the specified properties about them.

Modelling conventions:
- JSON values are the inductive `Json` below.  Numbers are modelled as
  integers (no claim depends on non-integral numbers).  Python dicts are
  association lists; lookups take the first match (parsed dicts have
  distinct keys).
- Python code that can raise is embedded in `Except String`; the error
  string names the Python exception class.
- Whitespace in `str.split()` is modelled by the ASCII whitespace
  characters; Python's `repr` escapes for characters other than backslash,
  quotes, tab, newline and carriage return are not modelled (no claim
  exercises them).
-/

/-- A parsed JSON value.  Mirrors the shapes `json.loads` can produce,
with numbers restricted to integers. -/
inductive Json where
  | null : Json
  | bool (b : Bool) : Json
  | num (n : Int) : Json
  | str (s : String) : Json
  | arr (items : List Json) : Json
  | obj (fields : List (String × Json)) : Json

/-- First-match lookup in an association list, i.e. `d[key]` / `d.get(key)`
on a Python dict represented as an ordered field list. -/
def lookupField : List (String × Json) → String → Option Json
  | [], _ => none
  | (k, v) :: rest, key => if k == key then some v else lookupField rest key

/-- Python truthiness (`if x:`) of a JSON value: `None`, `False`, `0`, the
empty string, the empty list and the empty dict are falsy. -/
def truthy : Json → Bool
  | .null => false
  | .bool b => b
  | .num n => n != 0
  | .str s => !s.isEmpty
  | .arr l => !l.isEmpty
  | .obj f => !f.isEmpty

/-- Does this JSON value equal (`==`) the given Python string?  Only a JSON
string with the same characters does. -/
def jsonIsStr : Json → String → Bool
  | .str s, t => s == t
  | _, _ => false

/-- `x is None` on a JSON value. -/
def isNull : Json → Bool
  | .null => true
  | _ => false

/-- `c.get("type") == "text"` on a dict `c`. -/
def typeIsText (f : List (String × Json)) : Bool :=
  match lookupField f "type" with
  | some (.str s) => s == "text"
  | _ => false

/-- The single quote character, used by Python `repr` of strings. -/
def squote : Char := Char.ofNat 39

/-- Escape one character of a Python string `repr` rendered with the given
quote character. -/
def pyEscapeChar (quote : Char) (c : Char) : String :=
  if c == '\\' then "\\\\"
  else if c == quote then "\\" ++ String.mk [quote]
  else if c == '\n' then "\\n"
  else if c == '\t' then "\\t"
  else if c == '\r' then "\\r"
  else String.mk [c]

/-- Python `repr` of a string: single-quoted, unless the string contains a
single quote and no double quote, in which case double-quoted. -/
def pyReprString (s : String) : String :=
  let quote : Char := if s.data.contains squote && !s.data.contains '"' then '"' else squote
  String.mk [quote] ++ String.join (s.data.map (pyEscapeChar quote)) ++ String.mk [quote]

mutual

/-- Python `repr` of a JSON value (also its `str`, for containers and
non-string scalars): what `str(req_json)` renders. -/
def pyRepr : Json → String
  | .null => "None"
  | .bool b => if b then "True" else "False"
  | .num n => toString n
  | .str s => pyReprString s
  | .arr l => "[" ++ pyReprItems l ++ "]"
  | .obj f => "\x7b" ++ pyReprEntries f ++ "\x7d"

/-- Comma-separated `repr`s of list items. -/
def pyReprItems : List Json → String
  | [] => ""
  | [x] => pyRepr x
  | x :: rest => pyRepr x ++ ", " ++ pyReprItems rest

/-- Comma-separated `repr(key): repr(value)` renderings of dict entries. -/
def pyReprEntries : List (String × Json) → String
  | [] => ""
  | [(k, v)] => pyReprString k ++ ": " ++ pyRepr v
  | (k, v) :: rest => pyReprString k ++ ": " ++ pyRepr v ++ ", " ++ pyReprEntries rest

end

/-- Python `str()` of a JSON value: differs from `repr` only on strings,
which it returns verbatim. -/
def pyStr : Json → String
  | .str s => s
  | j => pyRepr j

/-- Extract the strings of a part list for `"\n".join(parts)`: Python's
`str.join` raises `TypeError` when an element is not a `str`. -/
def asStrings : List Json → Except String (List String)
  | [] => .ok []
  | .str s :: rest => (asStrings rest).map (s :: ·)
  | _ :: _ => .error "TypeError"

/-- `sep.join(parts)` on a Python list that may hold non-strings. -/
def pyJoin (sep : String) (parts : List Json) : Except String String :=
  (asStrings parts).map (String.intercalate sep)

/-- The inner content-part loop of `extract_echo_text` (`src/agent.py`
lines 29-33 and 54-58): a dict with `type == "text"` contributes its
`text` field (default `""`), a plain string contributes itself, anything
else contributes nothing. -/
def contentPartFragments : List Json → List Json
  | [] => []
  | c :: rest =>
    match c with
    | .obj cf =>
      if typeIsText cf then (lookupField cf "text").getD (.str "") :: contentPartFragments rest
      else contentPartFragments rest
    | .str s => .str s :: contentPartFragments rest
    | _ => contentPartFragments rest

/-- The per-item loop over a list-valued `input` (`src/agent.py` lines
25-38). -/
def inputItemFragments : List Json → List Json
  | [] => []
  | item :: rest =>
    match item with
    | .obj f =>
      match lookupField f "content" with
      | some (.arr cs) => contentPartFragments cs ++ inputItemFragments rest
      | _ =>
        if typeIsText f then (lookupField f "text").getD (.str "") :: inputItemFragments rest
        else inputItemFragments rest
    | .str s => .str s :: inputItemFragments rest
    | _ => inputItemFragments rest

/-- `isinstance(m, dict) and m.get("role") == "user"` (`src/agent.py`
line 48). -/
def isUserMsg : Json → Bool
  | .obj f =>
    match lookupField f "role" with
    | some (.str s) => s == "user"
    | _ => false
  | _ => false

/-- Lines 50-62 of `src/agent.py`: what the `messages` branch does with
the selected message `last`.  A falsy `last` skips the `if last:` block
and falls through to `return ""`; a truthy non-dict makes
`last.get("content")` raise `AttributeError`. -/
def selectedMessageText (l : Json) : Except String String :=
  if truthy l then
    match l with
    | .obj lf =>
      match lookupField lf "content" with
      | some (.arr cs) => pyJoin "\n" (contentPartFragments cs)
      | some (.str s) => .ok s
      | _ => .ok ""
    | _ => .error "AttributeError"
  else .ok ""

/-- The `messages` branch of `extract_echo_text` (`src/agent.py` lines
46-62), applied to a list-valued `messages`: select the last user-role
dict, else the last message, else return `""`
(`user_msgs[-1] if user_msgs else (messages[-1] if messages else None)`). -/
def extractFromMessages (msgs : List Json) : Except String String :=
  match (msgs.filter (fun m => isUserMsg m)).getLast? with
  | some m => selectedMessageText m
  | none =>
    match msgs.getLast? with
    | some m => selectedMessageText m
    | none => .ok ""

/-- `extract_echo_text(req_json)` (`src/agent.py` lines 11-65) on the
fields of the parsed request dict. -/
def extract_echo_text (fields : List (String × Json)) : Except String String :=
  match lookupField fields "input" with
  | some inp =>
    match inp with
    | .str s => .ok s
    | .arr items =>
      pyJoin "\n" ((inputItemFragments items).filter (fun p => !isNull p))
    | _ => .ok (pyStr inp)
  | none =>
    match lookupField fields "messages" with
    | some msgs =>
      match msgs with
      | .arr l => extractFromMessages l
      | _ => .ok ""
    | none => .ok (pyStr (.obj fields))

/-- Is this character whitespace for Python `str.split()` (ASCII range)? -/
def isPyWs (c : Char) : Bool :=
  c == ' ' || c == '\t' || c == '\n' || c == '\r' || c == '\x0b' || c == '\x0c'

/-- Worker for `pySplitWs`: `acc` holds the current token's characters in
reverse. -/
def splitWsAux : List Char → List Char → List String
  | [], [] => []
  | [], acc => [String.mk acc.reverse]
  | c :: rest, acc =>
    if isPyWs c then
      match acc with
      | [] => splitWsAux rest []
      | _ => String.mk acc.reverse :: splitWsAux rest []
    else splitWsAux rest (c :: acc)

/-- Python `s.split()`: split on runs of whitespace, discarding empty
tokens. -/
def pySplitWs (s : String) : List String :=
  splitWsAux s.data []

/-- `build_responses_payload(echo_text, model)` (`src/agent.py` lines
68-100).  The effectful parts — `time.time()` and `uuid.uuid4().hex` — are
passed in as the parameters `now` and `hex`.  The `model` value is kept as
JSON because the handler passes through whatever the request carried. -/
def build_responses_payload (echo_text : String) (model : Json) (now : Int) (hex : String) : Json :=
  let output_text := "Echo... " ++ echo_text
  Json.obj [
    ("id", .str ("resp_" ++ hex)),
    ("object", .str "responses"),
    ("created", .num now),
    ("model", model),
    ("output", .arr [
      .obj [
        ("type", .str "message"),
        ("role", .str "assistant"),
        ("content", .arr [
          .obj [("type", .str "text"), ("text", .str output_text)]])]]),
    ("usage", .obj [
      ("input_tokens", .num 0),
      ("output_tokens", .num (pySplitWs output_text).length),
      ("total_tokens", .num (pySplitWs output_text).length)])]

/-- Outcome of one call of the HTTP handler: a response the handler built
itself, or an exception escaping the handler (which the framework turns
into a 500 error). -/
inductive HttpOutcome where
  | response (status : Nat) (body : Json) : HttpOutcome
  | crash (exn : String) : HttpOutcome

/-- `ct.startswith("application/json")`: does the declared content type
begin with the JSON media type marker?  (Character-list prefix test.) -/
def hasJsonMarker (ct : String) : Bool :=
  "application/json".data.isPrefixOf ct.data

/-- The `POST /v1/responses` handler (`src/agent.py` lines 103-119).
`contentType` is the request's `content-type` header; `parsedBody` is the
outcome of `await request.json()` on the body (only consulted when the
content type starts with `application/json`); `now` and `hex` stand for
the clock and UUID reads inside `build_responses_payload`.  Only the JSON
parse is inside the `try`; `req_json.get` and `extract_echo_text` run
outside it, so an exception there escapes as a crash. -/
def responses (contentType : Option String) (parsedBody : Except String Json)
    (now : Int) (hex : String) : HttpOutcome :=
  let reqJson : Except String Json :=
    if hasJsonMarker (contentType.getD "") then parsedBody
    else .ok (.obj [])
  match reqJson with
  | .error e => .response 400 (.obj [("error", .str ("Invalid JSON: " ++ e))])
  | .ok rj =>
    match rj with
    | .obj fields =>
      let model := (lookupField fields "model").getD (.str "mock-model")
      match extract_echo_text fields with
      | .error exn => .crash exn
      | .ok echoText => .response 200 (build_responses_payload echoText model now hex)
    | _ => .crash "AttributeError"

/-- The text of the single content part of the single output message of a
response envelope, when the envelope has that shape. -/
def outputTextOf (p : Json) : Option String :=
  match p with
  | .obj f =>
    match lookupField f "output" with
    | some (.arr [.obj mf]) =>
      match lookupField mf "content" with
      | some (.arr [.obj cf]) =>
        match lookupField cf "text" with
        | some (.str t) => some t
        | _ => none
      | _ => none
    | _ => none
  | _ => none

/-- The `usage` object of a response envelope. -/
def usageOf (p : Json) : Option Json :=
  match p with
  | .obj f => lookupField f "usage"
  | _ => none

/-- The text of the single output content part of a handler outcome, when
the outcome is a built response. -/
def outcomeText : HttpOutcome → Option String
  | .response _ p => outputTextOf p
  | .crash _ => none

/-- The status code of a handler outcome, when the handler returned a
response at all. -/
def outcomeStatus : HttpOutcome → Option Nat
  | .response s _ => some s
  | .crash _ => none

/-!  Helper lemmas. -/

/-- Unfolding of the handler on a JSON content type and a well-parsed
object body. -/
theorem responses_on_obj (fields : List (String × Json)) (now : Int) (hex : String) :
    responses (some "application/json") (.ok (.obj fields)) now hex
      = match extract_echo_text fields with
        | .error exn => .crash exn
        | .ok echoText =>
          .response 200 (build_responses_payload echoText
            ((lookupField fields "model").getD (.str "mock-model")) now hex) := by
  have h : hasJsonMarker ((some "application/json").getD "") = true := by decide
  simp only [responses, h, if_true]

/-- `str.split()` of `"Echo... " ++ t` yields `"Echo..."` followed by the
split of `t`. -/
theorem pySplitWs_echo (t : String) :
    pySplitWs ("Echo... " ++ t) = "Echo..." :: splitWsAux t.data [] := by
  rw [pySplitWs, String.data_append]
  rfl

/-- The per-item loop maps a list of plain JSON strings to itself. -/
theorem inputItemFragments_map_str (l : List String) :
    inputItemFragments (l.map Json.str) = l.map Json.str := by
  induction l with
  | nil => rfl
  | cons s rest ih => simp [inputItemFragments, ih]

/-- No plain JSON string is `None`, so the `p is not None` filter keeps a
string list intact. -/
theorem filter_notNull_map_str (l : List String) :
    (l.map Json.str).filter (fun p => !isNull p) = l.map Json.str := by
  induction l with
  | nil => rfl
  | cons s rest ih => simp [List.filter, isNull, ih]

/-- Collecting the strings of a list of plain JSON strings succeeds and
returns them all. -/
theorem asStrings_map_str (l : List String) :
    asStrings (l.map Json.str) = Except.ok l := by
  induction l with
  | nil => rfl
  | cons s rest ih => simp [asStrings, ih, Except.map]

/-- The user-role filter keeps a decomposition whose last user message is
`m` and ends exactly at `m`. -/
theorem filterUser_getLast_concat (pre post : List Json) (m : Json)
    (hm : isUserMsg m = true) (hpost : ∀ m2 ∈ post, isUserMsg m2 = false) :
    ((pre ++ m :: post).filter (fun x => isUserMsg x)).getLast? = some m := by
  have h1 : post.filter (fun x => isUserMsg x) = [] :=
    List.filter_eq_nil_iff.mpr (by simpa using hpost)
  simp [List.filter_append, List.filter_cons, hm, h1, List.getLast?_concat]

/-- When no message has role `"user"`, the user-role filter is empty. -/
theorem filterUser_nil (msgs : List Json) (h : ∀ m ∈ msgs, isUserMsg m = false) :
    msgs.filter (fun x => isUserMsg x) = [] :=
  List.filter_eq_nil_iff.mpr (by simpa using h)

/-- With no `input` field and a list-valued `messages` field, the
extractor runs the messages branch. -/
theorem extract_on_messages (fields : List (String × Json)) (msgs : List Json)
    (hin : lookupField fields "input" = none)
    (hm : lookupField fields "messages" = some (Json.arr msgs)) :
    extract_echo_text fields = extractFromMessages msgs := by
  simp only [extract_echo_text, hin, hm]

/-- A key other than `"stream"` looks up the same value whatever the value
stored at `"stream"` is. -/
theorem lookupField_middle_irrelevant (pre post : List (String × Json)) (v1 v2 : Json)
    (key : String) (hk : key ≠ "stream") :
    lookupField (pre ++ ("stream", v1) :: post) key
      = lookupField (pre ++ ("stream", v2) :: post) key := by
  induction pre with
  | nil =>
    have h : ("stream" == key) = false := by
      cases h0 : "stream" == key with
      | false => rfl
      | true => exact absurd (beq_iff_eq.mp h0).symm hk
    simp [lookupField, h]
  | cons kv rest ih =>
    obtain ⟨k, v⟩ := kv
    cases hkk : k == key with
    | true => simp [lookupField, hkk]
    | false => simpa [lookupField, hkk] using ih

/-- The extractor reads only the `input` and `messages` fields, except in
the stringified-whole-object fallback, which requires both to be
absent. -/
theorem extract_agrees_on_input_messages (f1 f2 : List (String × Json))
    (hi : lookupField f1 "input" = lookupField f2 "input")
    (hm : lookupField f1 "messages" = lookupField f2 "messages")
    (hne : (lookupField f1 "input").isSome = true
         ∨ (lookupField f1 "messages").isSome = true) :
    extract_echo_text f1 = extract_echo_text f2 := by
  cases h1 : lookupField f1 "input" with
  | some v =>
    have h2 : lookupField f2 "input" = some v := by rw [← hi, h1]
    simp only [extract_echo_text, h1, h2]
  | none =>
    have h2 : lookupField f2 "input" = none := by rw [← hi, h1]
    cases h3 : lookupField f1 "messages" with
    | some mv =>
      have h4 : lookupField f2 "messages" = some mv := by rw [← hm, h3]
      simp only [extract_echo_text, h1, h2, h3, h4]
    | none =>
      rcases hne with hin | hms
      · rw [h1] at hin; simp at hin
      · rw [h3] at hms; simp at hms

/-!  Claim theorems. -/

/-- C1: the claim that `extract_echo_text` is total — returning a string
for every parsed JSON object without raising — fails on the code: when
`messages` is a list whose selected last element is a truthy non-dict
(here the string `"hi"`), `last.get("content")` raises `AttributeError`.
This theorem evaluates the embedded extractor at that failing input. -/
theorem extract_echo_text_raises_on_string_message :
    extract_echo_text [("messages", Json.arr [Json.str "hi"])]
      = Except.error "AttributeError" := rfl

/-- C2: the claim that every well-parsed request body yields status 200
fails on the code: the body `{"messages": ["hi"]}` parses as JSON, but
`extract_echo_text` runs outside the `try` block and raises
`AttributeError`, so the handler crashes (an HTTP 500 from the framework)
instead of responding 200. -/
theorem responses_crashes_on_string_message (now : Int) (hex : String) :
    responses (some "application/json")
        (Except.ok (Json.obj [("messages", Json.arr [Json.str "hi"])])) now hex
      = HttpOutcome.crash "AttributeError" := by
  rw [responses_on_obj]
  rfl

/-- C4: for every string `s`, the body `{"input": s}` yields a 200
response whose output text is exactly `"Echo... " ++ s`. -/
theorem responses_input_string (s : String) (now : Int) (hex : String) :
    responses (some "application/json")
        (Except.ok (Json.obj [("input", Json.str s)])) now hex
      = HttpOutcome.response 200
          (build_responses_payload s (Json.str "mock-model") now hex)
    ∧ outputTextOf (build_responses_payload s (Json.str "mock-model") now hex)
      = some ("Echo... " ++ s) := by
  refine ⟨?_, rfl⟩
  rw [responses_on_obj]
  rfl

/-- C6: in every envelope the builder produces, `usage.input_tokens` is 0
and `usage.output_tokens` and `usage.total_tokens` both equal the
whitespace token count of the output text, which is `"Echo... "` followed
by the extracted text. -/
theorem usage_counts (echo : String) (model : Json) (now : Int) (hex : String) :
    usageOf (build_responses_payload echo model now hex)
      = some (Json.obj [
          ("input_tokens", Json.num 0),
          ("output_tokens", Json.num (pySplitWs ("Echo... " ++ echo)).length),
          ("total_tokens", Json.num (pySplitWs ("Echo... " ++ echo)).length)])
    ∧ outputTextOf (build_responses_payload echo model now hex)
      = some ("Echo... " ++ echo) :=
  ⟨rfl, rfl⟩

/-- C5: for every list of plain strings, the body
`{"input": [s1, s2, ...]}` yields a 200 response whose output text is
`"Echo... "` followed by the strings joined with newlines, in order. -/
theorem responses_input_string_list (l : List String) (now : Int) (hex : String) :
    responses (some "application/json")
        (Except.ok (Json.obj [("input", Json.arr (l.map Json.str))])) now hex
      = HttpOutcome.response 200
          (build_responses_payload (String.intercalate "\n" l)
            (Json.str "mock-model") now hex)
    ∧ outputTextOf (build_responses_payload (String.intercalate "\n" l)
          (Json.str "mock-model") now hex)
      = some ("Echo... " ++ String.intercalate "\n" l) := by
  refine ⟨?_, rfl⟩
  rw [responses_on_obj]
  have he : extract_echo_text [("input", Json.arr (l.map Json.str))]
      = Except.ok (String.intercalate "\n" l) := by
    show pyJoin "\n" ((inputItemFragments (l.map Json.str)).filter (fun p => !isNull p))
        = Except.ok (String.intercalate "\n" l)
    rw [inputItemFragments_map_str, filter_notNull_map_str, pyJoin, asStrings_map_str]
    rfl
  rw [he]
  rfl

/-- C7: a request whose declared content type does not begin with
`application/json` is never parsed: it is handled exactly like a request
with body `{}`, i.e. status 200 and extracted text `"{}"`, the
stringification of the empty object. -/
theorem responses_non_json_content_type (ct : Option String) (body : Except String Json)
    (now : Int) (hex : String)
    (h : hasJsonMarker (ct.getD "") = false) :
    responses ct body now hex
        = responses (some "application/json") (Except.ok (Json.obj [])) now hex
    ∧ responses ct body now hex
        = HttpOutcome.response 200
            (build_responses_payload "\x7b\x7d" (Json.str "mock-model") now hex) := by
  have h1 : responses ct body now hex
      = HttpOutcome.response 200
          (build_responses_payload "\x7b\x7d" (Json.str "mock-model") now hex) := by
    simp only [responses, h, Bool.false_eq_true, if_false]
    rfl
  exact ⟨h1.trans (responses_on_obj [] now hex).symm, h1⟩

/-- C7 witness: a `text/plain` request with an unparseable body is handled
like an empty-object request, with status 200. -/
theorem responses_non_json_content_type_w :
    responses (some "text/plain") (Except.error "boom") 0 "h"
        = responses (some "application/json") (Except.ok (Json.obj [])) 0 "h"
    ∧ responses (some "text/plain") (Except.error "boom") 0 "h"
        = HttpOutcome.response 200
            (build_responses_payload "\x7b\x7d" (Json.str "mock-model") 0 "h") :=
  responses_non_json_content_type (some "text/plain") (Except.error "boom") 0 "h"
    (by decide)

/-- C9: the output text always begins with the whitespace-free word
`"Echo..."`, so `usage.output_tokens` (and `usage.total_tokens`) is at
least 1, for every extracted text. -/
theorem usage_tokens_at_least_one (echo : String) (model : Json) (now : Int) (hex : String) :
    usageOf (build_responses_payload echo model now hex)
      = some (Json.obj [
          ("input_tokens", Json.num 0),
          ("output_tokens", Json.num (pySplitWs ("Echo... " ++ echo)).length),
          ("total_tokens", Json.num (pySplitWs ("Echo... " ++ echo)).length)])
    ∧ 1 ≤ (pySplitWs ("Echo... " ++ echo)).length := by
  refine ⟨rfl, ?_⟩
  rw [pySplitWs_echo, List.length_cons]
  omega

/-- C10: when `messages` is present but not a list and `input` is absent,
the extractor returns the empty string — the stringified-whole-object
fallback is not applied. -/
theorem extract_messages_non_list (fields : List (String × Json)) (mv : Json)
    (hin : lookupField fields "input" = none)
    (hm : lookupField fields "messages" = some mv)
    (hnl : ∀ l, mv ≠ Json.arr l) :
    extract_echo_text fields = Except.ok "" := by
  cases mv with
  | arr l => exact absurd rfl (hnl l)
  | null => simp only [extract_echo_text, hin, hm]
  | bool b => simp only [extract_echo_text, hin, hm]
  | num n => simp only [extract_echo_text, hin, hm]
  | str s => simp only [extract_echo_text, hin, hm]
  | obj f => simp only [extract_echo_text, hin, hm]

/-- C10 witness: `{"messages": "hi"}` extracts to the empty string. -/
theorem extract_messages_non_list_w :
    extract_echo_text [("messages", Json.str "hi")] = Except.ok "" :=
  extract_messages_non_list [("messages", Json.str "hi")] (Json.str "hi") rfl rfl
    (fun _ h => Json.noConfusion h)

/-- C3 counterexample: as stated, the claim fails when the body also has
an `input` field, because `input` takes precedence over `messages`: for
`{"input": "x", "messages": [{"role": "user", "content": "a"}]}` the
extractor returns `"x"`, not the selected user message's `"a"`. -/
theorem extract_messages_selection_cex :
    extract_echo_text [("input", Json.str "x"),
        ("messages", Json.arr [Json.obj [("role", Json.str "user"), ("content", Json.str "a")]])]
      = Except.ok "x"
    ∧ extractFromMessages [Json.obj [("role", Json.str "user"), ("content", Json.str "a")]]
      = Except.ok "a"
    ∧ extract_echo_text [("input", Json.str "x"),
        ("messages", Json.arr [Json.obj [("role", Json.str "user"), ("content", Json.str "a")]])]
      ≠ extractFromMessages [Json.obj [("role", Json.str "user"), ("content", Json.str "a")]] := by
  refine ⟨rfl, rfl, fun h => ?_⟩
  have h2 : (Except.ok "x" : Except String String) = Except.ok "a" := h
  exact absurd (Except.ok.inj h2) (by decide)

/-- C3 (amended): for every request body *without an `input` field* whose
`messages` field is a sequence, the extractor processes the last element
whose `role` is `"user"`; if no such element exists, the last element
overall; and if the sequence is empty it returns the empty string. -/
theorem extract_messages_selection (fields : List (String × Json)) (msgs : List Json)
    (hin : lookupField fields "input" = none)
    (hm : lookupField fields "messages" = some (Json.arr msgs)) :
    (∀ m pre post, msgs = pre ++ m :: post → isUserMsg m = true →
        (∀ m2 ∈ post, isUserMsg m2 = false) →
        extract_echo_text fields = selectedMessageText m)
    ∧ ((∀ m ∈ msgs, isUserMsg m = false) →
        ∀ m pre, msgs = pre ++ [m] → extract_echo_text fields = selectedMessageText m)
    ∧ (msgs = [] → extract_echo_text fields = Except.ok "") := by
  have he := extract_on_messages fields msgs hin hm
  refine ⟨?_, ?_, ?_⟩
  · intro m pre post hdecomp huser hpost
    rw [he, extractFromMessages, hdecomp, filterUser_getLast_concat pre post m huser hpost]
  · intro hnone m pre hdecomp
    rw [he, extractFromMessages, filterUser_nil msgs hnone, hdecomp]
    simp [List.getLast?_concat]
  · intro hempty
    rw [he, hempty]
    rfl

/-- C3 witness: on the spec's example
`{"messages": [{"role": "user", "content": "a"},
{"role": "assistant", "content": "b"}, {"role": "user", "content": "c"}]}`
the last user message wins and the extracted text is `"c"`. -/
theorem extract_messages_selection_w :
    extract_echo_text [("messages", Json.arr [
        Json.obj [("role", Json.str "user"), ("content", Json.str "a")],
        Json.obj [("role", Json.str "assistant"), ("content", Json.str "b")],
        Json.obj [("role", Json.str "user"), ("content", Json.str "c")]])]
      = Except.ok "c" := by
  have h := (extract_messages_selection
      [("messages", Json.arr [
        Json.obj [("role", Json.str "user"), ("content", Json.str "a")],
        Json.obj [("role", Json.str "assistant"), ("content", Json.str "b")],
        Json.obj [("role", Json.str "user"), ("content", Json.str "c")]])]
      [Json.obj [("role", Json.str "user"), ("content", Json.str "a")],
       Json.obj [("role", Json.str "assistant"), ("content", Json.str "b")],
       Json.obj [("role", Json.str "user"), ("content", Json.str "c")]]
      rfl rfl).1
      (Json.obj [("role", Json.str "user"), ("content", Json.str "c")])
      [Json.obj [("role", Json.str "user"), ("content", Json.str "a")],
       Json.obj [("role", Json.str "assistant"), ("content", Json.str "b")]]
      [] rfl rfl (by simp)
  exact h.trans rfl

/-- C8 counterexample: as stated, the claim fails: two bodies differing
only in `stream`, with neither `input` nor `messages`, hit the
stringified-whole-object fallback, which renders the `stream` value into
the output text, so the envelopes differ beyond `id` and `created` (here
both are built with the same timestamp and identifier). -/
theorem responses_stream_cex :
    outcomeText (responses (some "application/json")
        (Except.ok (Json.obj [("stream", Json.bool true)])) 0 "h")
      = some "Echo... \x7b\x27stream\x27: True\x7d"
    ∧ outcomeText (responses (some "application/json")
        (Except.ok (Json.obj [("stream", Json.bool false)])) 0 "h")
      = some "Echo... \x7b\x27stream\x27: False\x7d"
    ∧ responses (some "application/json") (Except.ok (Json.obj [("stream", Json.bool true)])) 0 "h"
      ≠ responses (some "application/json") (Except.ok (Json.obj [("stream", Json.bool false)])) 0 "h" := by
  have e1 : outcomeText (responses (some "application/json")
      (Except.ok (Json.obj [("stream", Json.bool true)])) 0 "h")
      = some "Echo... \x7b\x27stream\x27: True\x7d" := by
    rw [responses_on_obj]; rfl
  have e2 : outcomeText (responses (some "application/json")
      (Except.ok (Json.obj [("stream", Json.bool false)])) 0 "h")
      = some "Echo... \x7b\x27stream\x27: False\x7d" := by
    rw [responses_on_obj]; rfl
  refine ⟨e1, e2, fun h => ?_⟩
  have h3 := (congrArg outcomeText h).symm.trans e1
  have h4 := e2.symm.trans h3
  exact absurd (Option.some.inj h4) (by decide)

/-- C8 (amended): for two parsed bodies that differ only in the value of
their `stream` field *and carry an `input` or a `messages` field*, the
handler builds identical envelopes when the generated timestamp and
identifier coincide. -/
theorem responses_stream_noninterference (pre post : List (String × Json)) (v1 v2 : Json)
    (now : Int) (hex : String)
    (hne : (lookupField (pre ++ ("stream", v1) :: post) "input").isSome = true
         ∨ (lookupField (pre ++ ("stream", v1) :: post) "messages").isSome = true) :
    responses (some "application/json")
        (Except.ok (Json.obj (pre ++ ("stream", v1) :: post))) now hex
      = responses (some "application/json")
        (Except.ok (Json.obj (pre ++ ("stream", v2) :: post))) now hex := by
  have hi := lookupField_middle_irrelevant pre post v1 v2 "input" (by decide)
  have hms := lookupField_middle_irrelevant pre post v1 v2 "messages" (by decide)
  have hmo := lookupField_middle_irrelevant pre post v1 v2 "model" (by decide)
  have he := extract_agrees_on_input_messages _ _ hi hms hne
  rw [responses_on_obj, responses_on_obj, he, hmo]

/-- C8 witness: `{"input": "hi", "stream": true}` and
`{"input": "hi", "stream": false}` yield the same envelope for the same
timestamp and identifier. -/
theorem responses_stream_noninterference_w :
    responses (some "application/json")
        (Except.ok (Json.obj [("input", Json.str "hi"), ("stream", Json.bool true)])) 0 "h"
      = responses (some "application/json")
        (Except.ok (Json.obj [("input", Json.str "hi"), ("stream", Json.bool false)])) 0 "h" :=
  responses_stream_noninterference [("input", Json.str "hi")] [] (Json.bool true)
    (Json.bool false) 0 "h" (Or.inl (by decide))
